import Mathlib

/-!
Shallow embedding of the Multimodal_OCR_LLM repository (a Streamlit app that
extracts text from uploaded documents and summarises it with a hosted model).

The embedding covers:
  * `app/ocr_utils.py`: `_ocr_image`, `_extract_text_from_pdf_bytes`,
    `extract_text`;
  * `app/llm_utils.py`: `_get_api_key`, `summarize_text` and its
    reply-normalisation block;
  * `app/main.py`: the `main` upload / size-check / extract / summarise flow.

External libraries (PIL, pytesseract, pdfplumber, pdf2image, docx2txt, the
LangChain chain) are modelled as oracle fields of an environment record, and
observable side effects (OCR invocations, per-page rasterisation, temporary
file creation/removal) are returned as an explicit effect trace.  File bytes
are `List Nat`, Python exceptions are an explicit error type, and fallible
Python functions return `Except`.
-/

namespace OCRApp

/-- Decidable equality for `Except`, so that concrete runs of the embedded
fallible functions can be checked by `decide`. -/
instance {ε α : Type} [DecidableEq ε] [DecidableEq α] :
    DecidableEq (Except ε α) := fun
  | .ok a, .ok b =>
    if h : a = b then .isTrue (h ▸ rfl)
    else .isFalse fun he => h (Except.ok.inj he)
  | .error e, .error f =>
    if h : e = f then .isTrue (h ▸ rfl)
    else .isFalse fun he => h (Except.error.inj he)
  | .ok _, .error _ => .isFalse fun he => Except.noConfusion he
  | .error _, .ok _ => .isFalse fun he => Except.noConfusion he

/-- Python `str.strip()` whitespace set restricted to the ASCII whitespace
characters it strips; used only to test `page_text.strip() == ""`. -/
def pyIsSpace (c : Char) : Bool :=
  c = ' ' || c = '\t' || c = '\n' || c = '\r' || c = '\x0b' || c = '\x0c'

/-- Model of the Python test `s.strip() == ""`: every character of `s` is
whitespace. -/
def pyBlank (s : String) : Bool :=
  s.data.all pyIsSpace

/-- Model of Python `str.lower()` (ASCII case folding suffices for the
extension strings compared in `extract_text`). -/
def pyLower (s : String) : String :=
  String.mk (s.data.map Char.toLower)

/-- Index of the last occurrence of `c` in `cs`, or `-1` when absent, as in
CPython `str.rfind`. -/
def lastIndexOf (cs : List Char) (c : Char) : Int :=
  (List.range cs.length).foldl
    (fun acc i => if cs.get? i = some c then (i : Int) else acc) (-1)

/-- Extension part of CPython `posixpath.splitext(p)[1]`: the suffix starting
at the last dot, provided that dot comes after the last path separator and at
least one non-dot character stands between the separator and the dot (leading
dots of a basename never start an extension). -/
def pySplitextExt (p : String) : String :=
  let cs := p.data
  let sepIndex := lastIndexOf cs '/'
  let dotIndex := lastIndexOf cs '.'
  let hasNonDot := (List.range cs.length).any fun i =>
    decide (sepIndex < (i : Int)) && decide ((i : Int) < dotIndex) &&
      !(cs.get? i == some '.')
  if decide (sepIndex < dotIndex) && hasNonDot then
    String.mk (cs.drop dotIndex.toNat)
  else ""

/-- Concatenation of a list of strings (left to right, no separator). -/
def concatAll : List String → String
  | [] => ""
  | s :: rest => s ++ concatAll rest

/-- UTF-8 continuation byte test (`0x80 ≤ b ≤ 0xBF`). -/
def isCont (b : Nat) : Bool :=
  0x80 ≤ b && b ≤ 0xBF

/-- Strict UTF-8 decoder, the semantics of Python `bytes.decode("utf-8")`:
rejects stray continuation bytes, overlong encodings, surrogates and code
points above `U+10FFFF`; returns `none` exactly when CPython raises
`UnicodeDecodeError`. -/
def utf8Decode : List Nat → Option (List Char)
  | [] => some []
  | b0 :: l1 =>
    if b0 < 0x80 then
      (utf8Decode l1).map fun cs => Char.ofNat b0 :: cs
    else if b0 < 0xC2 then none
    else if b0 < 0xE0 then
      match l1 with
      | b1 :: l2 =>
        if isCont b1 then
          (utf8Decode l2).map fun cs =>
            Char.ofNat ((b0 - 0xC0) * 0x40 + (b1 - 0x80)) :: cs
        else none
      | [] => none
    else if b0 < 0xF0 then
      match l1 with
      | b1 :: b2 :: l3 =>
        if (if b0 = 0xE0 then 0xA0 ≤ b1 && b1 ≤ 0xBF
            else if b0 = 0xED then 0x80 ≤ b1 && b1 ≤ 0x9F
            else isCont b1) && isCont b2 then
          (utf8Decode l3).map fun cs =>
            Char.ofNat ((b0 - 0xE0) * 0x1000 + (b1 - 0x80) * 0x40 + (b2 - 0x80)) :: cs
        else none
      | _ => none
    else if b0 < 0xF5 then
      match l1 with
      | b1 :: b2 :: b3 :: l4 =>
        if (if b0 = 0xF0 then 0x90 ≤ b1 && b1 ≤ 0xBF
            else if b0 = 0xF4 then 0x80 ≤ b1 && b1 ≤ 0x8F
            else isCont b1) && isCont b2 && isCont b3 then
          (utf8Decode l4).map fun cs =>
            Char.ofNat ((b0 - 0xF0) * 0x40000 + (b1 - 0x80) * 0x1000 +
              (b2 - 0x80) * 0x40 + (b3 - 0x80)) :: cs
        else none
      | _ => none
    else none

/-- Model of Python `file_bytes.decode("utf-8")`: `some` of the decoded string
on valid UTF-8 input, `none` when decoding raises. -/
def utf8DecodeStr (bytes : List Nat) : Option String :=
  (utf8Decode bytes).map String.mk

/-- Opaque handle for a `PIL.Image.Image` value. -/
structure Image where
  id : Nat
deriving DecidableEq

/-- Python exceptions that the embedded code can raise or propagate. -/
inductive PyErr
  /-- `ValueError` with its message. -/
  | valueError (msg : String)
  /-- `NameError` from evaluating an unbound name. -/
  | nameError
  /-- an exception propagated from `PIL.Image.open`. -/
  | imageError
  /-- an exception propagated from `pdfplumber.open`. -/
  | pdfError
  /-- an exception propagated from `docx2txt.process`. -/
  | docxError
deriving DecidableEq

/-- Observable side effects of the extraction pipeline. -/
inductive Eff
  /-- `pytesseract.image_to_string` was invoked with this `config` string. -/
  | ocrCall (config : String)
  /-- `pdf2image.convert_from_bytes` rasterised this zero-based page. -/
  | rasterize (page : Nat)
  /-- `tempfile.NamedTemporaryFile` created a file; the flag records whether
  it was created with delete-on-close. -/
  | tmpCreate (deleteOnClose : Bool)
  /-- an explicit removal (`os.unlink` or equivalent) of the temporary file. -/
  | tmpRemove
deriving DecidableEq

/-- `true` when an effect is an invocation of the optical-recognition engine
(either a direct OCR call or the rasterisation that feeds it). -/
def Eff.isOcr : Eff → Bool
  | .ocrCall _ => true
  | .rasterize _ => true
  | _ => false

/-- `true` when the trace removes the temporary file it created: either by an
explicit removal or because the file was created with delete-on-close. -/
def tempFileRemoved (effs : List Eff) : Bool :=
  effs.any fun e =>
    match e with
    | .tmpRemove => true
    | .tmpCreate d => d
    | _ => false

/-- Oracles for the external libraries used by `ocr_utils.py`.  Each field
models one third-party call; `none` results model the call raising. -/
structure OcrEnv where
  /-- `PIL.Image.open(io.BytesIO(file_bytes))`. -/
  imageOpen : List Nat → Option Image
  /-- `pytesseract.image_to_string(image, config=config)`. -/
  imageToString : Image → String → String
  /-- `pdfplumber.open` plus `page.extract_text()` on each page, in order:
  `some pages` gives each page's direct text-layer extraction (`none` inside
  the list models a page returning Python `None`); an outer `none` models
  `pdfplumber.open` raising on malformed input. -/
  pdfParse : List Nat → Option (List (Option String))
  /-- `pdf2image.convert_from_bytes(file_bytes, first_page=i+1, last_page=i+1)`
  for zero-based page `i`. -/
  pdfPageToImage : List Nat → Nat → List Image
  /-- whether the optional `pdf2image` import succeeded
  (`_PDF2IMAGE_AVAILABLE`). -/
  pdf2imageAvailable : Bool
  /-- `docx2txt.process` applied to a file holding these bytes; `none` models
  the reader raising. -/
  docxProcess : List Nat → Option String

/-- Embedding of `_ocr_image` (ocr_utils.py lines 35-54): builds the Tesseract
`config` string (empty unless a truthy `lang` is given, Python truthiness makes
`Some ""` behave like `None`) and runs the engine, recording the call. -/
def _ocr_image (env : OcrEnv) (image : Image) (lang : Option String) :
    String × List Eff :=
  let config :=
    match lang with
    | none => ""
    | some l => if l = "" then "" else " -l " ++ l
  (env.imageToString image config, [Eff.ocrCall config])

/-- The inner `for img in images: page_text += _ocr_image(img)` loop of
`_extract_text_from_pdf_bytes`: OCR each rasterised image with the default
language and concatenate the outputs, accumulating the effects. -/
def ocrImagesFold (env : OcrEnv) : List Image → String × List Eff
  | [] => ("", [])
  | img :: rest =>
    let r := _ocr_image env img none
    let rr := ocrImagesFold env rest
    (r.1 ++ rr.1, r.2 ++ rr.2)

/-- One iteration of the page loop of `_extract_text_from_pdf_bytes` (lines
76-85), before the trailing `+ "\n"`: take the page's direct extraction
(`page.extract_text() or ""`); if it is blank and `pdf2image` is available,
rasterise this single page and append the OCR output of each returned image. -/
def pdfPageProcess (env : OcrEnv) (file_bytes : List Nat) (page_num : Nat)
    (page : Option String) : String × List Eff :=
  let page_text := page.getD ""
  if pyBlank page_text && env.pdf2imageAvailable then
    let images := env.pdfPageToImage file_bytes page_num
    let f := ocrImagesFold env images
    (page_text ++ f.1, Eff.rasterize page_num :: f.2)
  else (page_text, [])

/-- The `for page_num, page in enumerate(pdf.pages)` loop of
`_extract_text_from_pdf_bytes`: process each page and append its text followed
by a newline to the accumulator. -/
def pdfLoop (env : OcrEnv) (file_bytes : List Nat) :
    Nat → List (Option String) → String × List Eff
  | _, [] => ("", [])
  | i, p :: rest =>
    let pr := pdfPageProcess env file_bytes i p
    let r := pdfLoop env file_bytes (i + 1) rest
    (pr.1 ++ "\n" ++ r.1, pr.2 ++ r.2)

/-- Embedding of `_extract_text_from_pdf_bytes` (ocr_utils.py lines 57-87):
open the PDF (propagating a parse failure) and run the page loop from page 0
with an empty accumulator. -/
def _extract_text_from_pdf_bytes (env : OcrEnv) (file_bytes : List Nat) :
    Except PyErr String × List Eff :=
  match env.pdfParse file_bytes with
  | none => (Except.error PyErr.pdfError, [])
  | some pages =>
    let r := pdfLoop env file_bytes 0 pages
    (Except.ok r.1, r.2)

/-- Dispatch body of `extract_text` (ocr_utils.py lines 112-130), applied to
the already-lowercased extension:
  * image extensions: open the image and OCR it once, forwarding `lang`;
  * `.pdf`: delegate to `_extract_text_from_pdf_bytes` (no `lang` forwarded);
  * `.docx`: write the bytes to a `NamedTemporaryFile(delete=False)` and run
    `docx2txt.process` on it inside the `with` block — the file is created
    with `deleteOnClose = false` and no removal effect is ever emitted;
  * anything else: decode the bytes as UTF-8, raising
    `ValueError "Unsupported file format: <ext>"` when decoding fails. -/
def extractByExt (env : OcrEnv) (file_bytes : List Nat) (ext : String)
    (lang : Option String) : Except PyErr String × List Eff :=
  if ext = ".png" ∨ ext = ".jpg" ∨ ext = ".jpeg" then
    match env.imageOpen file_bytes with
    | none => (Except.error PyErr.imageError, [])
    | some image =>
      let r := _ocr_image env image lang
      (Except.ok r.1, r.2)
  else if ext = ".pdf" then
    _extract_text_from_pdf_bytes env file_bytes
  else if ext = ".docx" then
    match env.docxProcess file_bytes with
    | some text => (Except.ok text, [Eff.tmpCreate false])
    | none => (Except.error PyErr.docxError, [Eff.tmpCreate false])
  else
    match utf8DecodeStr file_bytes with
    | some s => (Except.ok s, [])
    | none =>
      (Except.error (PyErr.valueError ("Unsupported file format: " ++ ext)), [])

/-- Embedding of `extract_text` (ocr_utils.py lines 90-130): compute the
lowercased extension with `os.path.splitext` and dispatch on it. -/
def extract_text (env : OcrEnv) (file_bytes : List Nat) (filename : String)
    (lang : Option String) : Except PyErr String × List Eff :=
  extractByExt env file_bytes (pyLower (pySplitextExt filename)) lang

/-- Shape of the value returned by `chain.invoke` in `summarize_text`: an
object that may carry a `content` attribute, a mapping, or a plain string;
each shape also records its `str(...)` rendering. -/
inductive Reply
  /-- an object; `content` is its `content` attribute when `hasattr` holds. -/
  | obj (content : Option String) (strRepr : String)
  /-- a `dict`, with its (string-valued) entries. -/
  | dict (entries : List (String × String)) (strRepr : String)
  /-- a plain string. -/
  | str (s : String)
deriving DecidableEq

/-- The reply-handling block of `summarize_text` (llm_utils.py lines 85-90):
return `result.content` when the attribute exists, else `result["content"]`
when the reply is a mapping with that key, else `str(result)`. -/
def normalizeResult : Reply → String
  | .obj (some c) _ => c
  | .obj none r => r
  | .dict es r => (List.lookup "content" es).getD r
  | .str s => s

/-- Oracles for the externals of `llm_utils.py`. -/
structure LlmEnv where
  /-- `os.getenv("GOOGLE_API_KEY")`. -/
  googleApiKeyEnv : Option String
  /-- `chain.invoke({"text": text})` as a function of the filled-in prompt. -/
  chainInvoke : String → Reply

/-- Module-level binding of the name `YOUR_API_KEY` in `llm_utils.py`: no
assignment or import binds this name anywhere in the module, so it is `none`
and evaluating the name raises `NameError`. -/
def YOUR_API_KEY_binding : Option String := none

/-- Embedding of `_get_api_key` (llm_utils.py lines 17-36).  The body is
`api_key = YOUR_API_KEY or os.getenv("GOOGLE_API_KEY")` followed by
`if not api_key: raise ValueError(...)`; evaluating the unbound name
`YOUR_API_KEY` raises `NameError` before `explicit_key` (which the body never
reads) or the environment is consulted. -/
def _get_api_key (env : LlmEnv) (explicit_key : Option String) :
    Except PyErr String :=
  match YOUR_API_KEY_binding with
  | none => Except.error PyErr.nameError
  | some y =>
    let api_key : Option String :=
      if y = "" then env.googleApiKeyEnv else some y
    match api_key with
    | some k =>
      if k = "" then
        Except.error (PyErr.valueError
          "No Google API key provided.  Set the GOOGLE_API_KEY environment variable")
      else Except.ok k
    | none =>
      Except.error (PyErr.valueError
        "No Google API key provided.  Set the GOOGLE_API_KEY environment variable")

/-- The prompt template of `summarize_text` with the `text` variable filled
in, as `PromptTemplate` renders it. -/
def promptTemplate (text : String) : String :=
  "You are a helpful assistant. Read the following document text extracted with OCR " ++
  "and provide a concise summary highlighting the main points. Be clear and coherent.\n\n" ++
  "Document text extracted with OCR :\n" ++ text ++ "\n\nSummary:"

/-- Embedding of `summarize_text` (llm_utils.py lines 39-90): resolve the
credential (propagating its exception), invoke the prompt-then-model chain on
the input text, and normalise the reply. -/
def summarize_text (env : LlmEnv) (text : String) (api_key : Option String) :
    Except PyErr String :=
  match _get_api_key env api_key with
  | Except.error e => Except.error e
  | Except.ok _key =>
    let result := env.chainInvoke (promptTemplate text)
    Except.ok (normalizeResult result)

/-- The `str(ex)` rendering the UI interpolates into its error messages. -/
def PyErr.toMessage : PyErr → String
  | .valueError m => m
  | .nameError => "name YOUR_API_KEY is not defined"
  | .imageError => "cannot identify image file"
  | .pdfError => "No /Root object"
  | .docxError => "file is not a zip file"

/-- User-visible UI actions emitted by `main`. -/
inductive Act
  /-- `st.error(msg)`. -/
  | errorMsg (msg : String)
  /-- entry into `extract_text`. -/
  | extractCall
  /-- the extracted text shown in the expander's text area. -/
  | textArea (content : String)
  /-- entry into `summarize_text`. -/
  | summarizeCall
  /-- `st.subheader("Summary")`. -/
  | subheader
  /-- `st.write(summary)`. -/
  | writeOut (s : String)
  /-- `st.warning(msg)`. -/
  | warningMsg (msg : String)
deriving DecidableEq

/-- Embedding of `main` (main.py lines 18-59) as the list of user-visible
actions for one upload: with an uploaded file, reject it when its byte length
exceeds `10 * 1024 * 1024` before any extraction; otherwise run
`extract_text` (no language hint), surface its error or display its text, and
on the button press run `summarize_text(text)`, rendering the summary, an
empty-summary warning, or the summarisation error. -/
def main (oenv : OcrEnv) (lenv : LlmEnv) (upload : Option (List Nat × String))
    (buttonPressed : Bool) : List Act :=
  match upload with
  | none => []
  | some (file_bytes, filename) =>
    if file_bytes.length > 10 * 1024 * 1024 then
      [Act.errorMsg "File exceeds maximum allowed size of 10 MB."]
    else
      Act.extractCall ::
      match extract_text oenv file_bytes filename none with
      | (Except.error e, _) =>
        [Act.errorMsg ("Error extracting text: " ++ e.toMessage)]
      | (Except.ok text, _) =>
        Act.textArea text ::
        if buttonPressed then
          Act.summarizeCall ::
          match summarize_text lenv text none with
          | Except.ok summary =>
            Act.subheader ::
            (if summary = "" then
              [Act.warningMsg "No summary was generated. Please check your Gemini API key or try with another document."]
            else [Act.writeOut summary])
          | Except.error e =>
            [Act.errorMsg ("Error during summarisation: " ++ e.toMessage)]
        else []

/-! Concrete environments and inputs used to instantiate the theorems. -/

/-- A fixed image handle returned by the concrete oracles. -/
def img0 : Image := ⟨0⟩

/-- A neutral environment: image decoding succeeds, OCR returns the empty
string, PDFs fail to parse, rasterisation is unavailable, the DOCX reader
raises. -/
def baseEnv : OcrEnv where
  imageOpen := fun _ => some img0
  imageToString := fun _ _ => ""
  pdfParse := fun _ => none
  pdfPageToImage := fun _ _ => []
  pdf2imageAvailable := false
  docxProcess := fun _ => none

/-- Placeholder PDF bytes (`%PDF`); the oracles ignore the bytes. -/
def pdfBytes : List Nat := [37, 80, 68, 70]

/-- Placeholder DOCX bytes (`PK` zip header); the oracles ignore the bytes. -/
def docBytes : List Nat := [80, 75, 3, 4]

/-- Environment whose DOCX reader succeeds. -/
def envDocxOk : OcrEnv :=
  { baseEnv with docxProcess := fun _ => some "Hello from DOCX" }

/-- Environment whose DOCX reader raises. -/
def envDocxFail : OcrEnv :=
  { baseEnv with docxProcess := fun _ => none }

/-- Environment for a one-page PDF whose page has the digital text `"A"`. -/
def envPdfA : OcrEnv :=
  { baseEnv with pdfParse := fun _ => some [some "A"], pdf2imageAvailable := true }

/-- Environment for a two-page PDF with digital text `"A"` and `"B"`. -/
def envPdfAB : OcrEnv :=
  { baseEnv with pdfParse := fun _ => some [some "A", some "B"],
                 pdf2imageAvailable := true }

/-- Environment for a one-page PDF whose text layer is the single space `" "`
(whitespace-only), with rasterisation available and OCR returning `"W"`. -/
def envPdfWs : OcrEnv :=
  { baseEnv with pdfParse := fun _ => some [some " "],
                 pdfPageToImage := fun _ _ => [img0],
                 imageToString := fun _ _ => "W",
                 pdf2imageAvailable := true }

/-- Environment for a two-page PDF whose pages both yield no text (one empty
string, one Python `None`), with rasterisation unavailable. -/
def envPdfBlankNoRaster : OcrEnv :=
  { baseEnv with pdfParse := fun _ => some [some "", none],
                 pdf2imageAvailable := false }

/-- Environment for a zero-page PDF. -/
def envPdfEmpty : OcrEnv :=
  { baseEnv with pdfParse := fun _ => some [] }

/-- LLM environment with the environment variable set and a chain that replies
with an object carrying the `content` attribute `"X"`. -/
def lenvMockX : LlmEnv where
  googleApiKeyEnv := some "env-key"
  chainInvoke := fun _ => Reply.obj (some "X") "AIMessageRepr"

/-- LLM environment with no environment variable and a chain replying with a
plain string. -/
def lenv0 : LlmEnv where
  googleApiKeyEnv := none
  chainInvoke := fun _ => Reply.str "Z"

/-! Helper lemmas about the embedded definitions. -/

/-- Unfolding `extract_text` to its extension dispatch. -/
theorem extract_text_eq (env : OcrEnv) (file_bytes : List Nat)
    (filename : String) (lang : Option String) :
    extract_text env file_bytes filename lang =
      extractByExt env file_bytes (pyLower (pySplitextExt filename)) lang := rfl

/-- On the `.pdf` extension the dispatch reaches the PDF extractor and the
language hint is dropped. -/
theorem extractByExt_pdf (env : OcrEnv) (file_bytes : List Nat)
    (lang : Option String) :
    extractByExt env file_bytes ".pdf" lang =
      _extract_text_from_pdf_bytes env file_bytes := rfl

/-- The OCR loop over rasterised images returns the concatenated engine
outputs (default language, empty config) and one `ocrCall` effect per image. -/
theorem ocrImagesFold_spec (env : OcrEnv) (images : List Image) :
    ocrImagesFold env images =
      (concatAll (images.map fun img => env.imageToString img ""),
       images.map fun _ => Eff.ocrCall "") := by
  induction images with
  | nil => rfl
  | cons img rest ih => simp [ocrImagesFold, _ocr_image, concatAll, ih]

/-- With rasterisation unavailable, the page loop returns each page's direct
text followed by a newline, with no effects. -/
theorem pdfLoop_unavailable (env : OcrEnv) (bytes : List Nat)
    (hav : env.pdf2imageAvailable = false) :
    ∀ (pages : List (Option String)) (i : Nat),
      pdfLoop env bytes i pages =
        (concatAll (pages.map fun p => (p.getD "") ++ "\n"), []) := by
  intro pages
  induction pages with
  | nil => intro i; rfl
  | cons p rest ih =>
    intro i
    simp [pdfLoop, pdfPageProcess, hav, ih, concatAll, String.append_assoc]

/-- When every page has non-blank direct text, the page loop returns each
page's text followed by a newline and never rasterises or OCRs. -/
theorem pdfLoop_nonblank (env : OcrEnv) (bytes : List Nat) :
    ∀ (pages : List (Option String)),
      (∀ p ∈ pages, pyBlank (p.getD "") = false) →
      ∀ i, pdfLoop env bytes i pages =
        (concatAll (pages.map fun p => (p.getD "") ++ "\n"), []) := by
  intro pages
  induction pages with
  | nil => intro _ i; rfl
  | cons p rest ih =>
    intro h i
    have hp : pyBlank (p.getD "") = false := h p (List.mem_cons_self p rest)
    have hrest := ih (fun q hq => h q (List.mem_cons_of_mem p hq)) (i + 1)
    simp [pdfLoop, pdfPageProcess, hp, hrest, concatAll, String.append_assoc]

/-- When rasterisation is available, a blank page at index `i` produces a
`rasterize` effect for that page. -/
theorem pdfLoop_rasterize_mem (env : OcrEnv) (bytes : List Nat)
    (hav : env.pdf2imageAvailable = true) :
    ∀ (pages : List (Option String)) (i k : Nat) (p : Option String),
      pages.get? i = some p → pyBlank (p.getD "") = true →
      Eff.rasterize (k + i) ∈ (pdfLoop env bytes k pages).2 := by
  intro pages
  induction pages with
  | nil => intro i k p h _; simp at h
  | cons q rest ih =>
    intro i k p h hb
    cases i with
    | zero =>
      simp at h
      subst h
      simp [pdfLoop, pdfPageProcess, hb, hav]
    | succ j =>
      have hmem := ih j (k + 1) p (by simpa using h) hb
      have harith : k + (j + 1) = (k + 1) + j := by omega
      rw [harith]
      simp only [pdfLoop]
      exact List.mem_append_right _ hmem

/-! Claim theorems. -/

/-- C1: the claim says `summarize_text` resolves the credential as the
explicit `api_key` parameter, else the `GOOGLE_API_KEY` environment variable,
and raises `ValueError` when neither is set.  The code instead evaluates the
unbound module name `YOUR_API_KEY` first, so every call to `_get_api_key` —
and hence every call to `summarize_text` — raises `NameError`, for every
explicit key and every environment: the explicit parameter is ignored and the
documented `ValueError` is unreachable. -/
theorem c1_get_api_key_always_raises_nameerror (env : LlmEnv)
    (k : Option String) :
    _get_api_key env k = Except.error PyErr.nameError ∧
    summarize_text env "some document" k = Except.error PyErr.nameError :=
  ⟨rfl, rfl⟩

/-- C1 witness: with the environment variable set and an explicit key
supplied, the call still raises `NameError`. -/
theorem c1_witness :
    _get_api_key lenvMockX (some "explicit-key") =
      Except.error PyErr.nameError :=
  (c1_get_api_key_always_raises_nameerror lenvMockX (some "explicit-key")).1

/-- C2: the claim says the temporary file written on the `.docx` path is
removed (or handed to an OS cleanup that removes it) whether the read succeeds
or raises.  The code creates it with `NamedTemporaryFile(delete=False)` and
never unlinks it, so on both the success and the failure of `docx2txt.process`
the trace holds one `tmpCreate false` and no removal. -/
theorem c2_docx_tempfile_never_removed :
    (extract_text envDocxOk docBytes "file.docx" none).2 =
        [Eff.tmpCreate false] ∧
      (extract_text envDocxFail docBytes "file.docx" none).2 =
        [Eff.tmpCreate false] ∧
      tempFileRemoved [Eff.tmpCreate false] = false := by
  refine ⟨?_, ?_, rfl⟩ <;> rfl

/-- C3 counterexample: the claim says a PDF all of whose pages yield non-empty
direct text gives exactly the page texts joined with a single newline between
consecutive pages (no other added characters) and OCR is never invoked.  A
one-page PDF with page text `"A"` yields `"A\n"`, not `"A"` (a newline is
appended after every page, including the last); and a page whose non-empty
text is the single space `" "` is whitespace-only, so the code does invoke
OCR on it when rasterisation is available. -/
theorem c3_counterexample :
    (extract_text envPdfA pdfBytes "doc.pdf" none).1 = Except.ok "A\n" ∧
      (Except.ok "A\n" : Except PyErr String) ≠ Except.ok "A" ∧
      (extract_text envPdfWs pdfBytes "doc.pdf" none).1 = Except.ok " W\n" ∧
      Eff.ocrCall "" ∈ (extract_text envPdfWs pdfBytes "doc.pdf" none).2 := by
  decide

/-- C3 (amended): for every PDF input all of whose pages yield non-blank (not
whitespace-only) direct text-layer extraction, `extract_text` returns the
concatenation, in page order, of each page's direct text followed by one
newline (so a newline also ends the output), and rasterization/OCR is never
invoked (the effect trace is empty). -/
theorem c3_pdf_digital_text_concats_pages_with_newlines (env : OcrEnv)
    (bytes : List Nat) (name : String) (lang : Option String)
    (pages : List (Option String))
    (hext : pyLower (pySplitextExt name) = ".pdf")
    (hparse : env.pdfParse bytes = some pages)
    (hnb : ∀ p ∈ pages, pyBlank (p.getD "") = false) :
    extract_text env bytes name lang =
      (Except.ok (concatAll (pages.map fun p => (p.getD "") ++ "\n")), []) := by
  rw [extract_text_eq, hext, extractByExt_pdf]
  simp only [_extract_text_from_pdf_bytes, hparse]
  rw [pdfLoop_nonblank env bytes pages hnb 0]

/-- C3 witness: a two-page digital PDF with texts `"A"` and `"B"` extracts to
`"A\nB\n"` with an empty effect trace. -/
theorem c3_witness :
    extract_text envPdfAB pdfBytes "doc.pdf" none =
      (Except.ok "A\nB\n", []) := by
  rw [c3_pdf_digital_text_concats_pages_with_newlines envPdfAB pdfBytes
    "doc.pdf" none [some "A", some "B"] (by decide) rfl (by decide)]
  decide

/-- C4: PDF extraction proceeds page by page in document order; a page whose
direct text is blank is rasterised and OCRed (its output appended to the
page's text) only when `pdf2image` is available; when it is unavailable such
pages contribute only their (blank) direct text and no error is raised, so an
all-blank PDF yields a string of only newline separators.  Stated as: (i) with
rasterisation unavailable every page contributes exactly its direct text plus
a newline, with no effects and no error; (ii) in particular an all-empty PDF
yields only newlines; (iii) with rasterisation available, a blank page at
index `i` emits a `rasterize i` effect and its contribution is its direct
text with the OCR outputs of its rasterised images appended. -/
theorem c4_pdf_blank_page_rasterize_policy :
    (∀ (env : OcrEnv) (bytes : List Nat) (name : String) (lang : Option String)
        (pages : List (Option String)),
        pyLower (pySplitextExt name) = ".pdf" →
        env.pdf2imageAvailable = false →
        env.pdfParse bytes = some pages →
        extract_text env bytes name lang =
          (Except.ok (concatAll (pages.map fun p => (p.getD "") ++ "\n")), [])) ∧
    (∀ (env : OcrEnv) (bytes : List Nat) (name : String) (lang : Option String)
        (pages : List (Option String)),
        pyLower (pySplitextExt name) = ".pdf" →
        env.pdf2imageAvailable = false →
        env.pdfParse bytes = some pages →
        (∀ p ∈ pages, p.getD "" = "") →
        extract_text env bytes name lang =
          (Except.ok (concatAll (pages.map fun _ => "\n")), [])) ∧
    (∀ (env : OcrEnv) (bytes : List Nat) (i : Nat) (p : Option String)
        (pages : List (Option String)),
        env.pdf2imageAvailable = true →
        env.pdfParse bytes = some pages →
        pages.get? i = some p →
        pyBlank (p.getD "") = true →
        Eff.rasterize i ∈ (_extract_text_from_pdf_bytes env bytes).2 ∧
        (pdfPageProcess env bytes i p).1 =
          (p.getD "") ++ concatAll ((env.pdfPageToImage bytes i).map fun img =>
            env.imageToString img "")) := by
  refine ⟨?_, ?_, ?_⟩
  · intro env bytes name lang pages hext hav hparse
    rw [extract_text_eq, hext, extractByExt_pdf]
    simp only [_extract_text_from_pdf_bytes, hparse]
    rw [pdfLoop_unavailable env bytes hav pages 0]
  · intro env bytes name lang pages hext hav hparse hempty
    rw [extract_text_eq, hext, extractByExt_pdf]
    simp only [_extract_text_from_pdf_bytes, hparse]
    rw [pdfLoop_unavailable env bytes hav pages 0]
    have hmap : pages.map (fun p => (p.getD "") ++ "\n") =
        pages.map fun _ => "\n" := by
      apply List.map_congr_left
      intro p hp
      rw [hempty p hp]
      rfl
    rw [hmap]
  · intro env bytes i p pages hav hparse hget hb
    constructor
    · simp only [_extract_text_from_pdf_bytes, hparse]
      have := pdfLoop_rasterize_mem env bytes hav pages i 0 p hget hb
      simpa using this
    · simp [pdfPageProcess, hb, hav, ocrImagesFold_spec]

/-- C4 witness: a two-page PDF whose pages yield `""` and `None`, with
rasterisation unavailable, extracts without error to `"\n\n"` with no OCR
effects; and with rasterisation available, a whitespace-only page at index 0
is rasterised and its contribution is the page text `" "` with the OCR output
`"W"` appended. -/
theorem c4_witness :
    extract_text envPdfBlankNoRaster pdfBytes "scan.pdf" none =
        (Except.ok "\n\n", []) ∧
      Eff.rasterize 0 ∈ (_extract_text_from_pdf_bytes envPdfWs pdfBytes).2 ∧
      (pdfPageProcess envPdfWs pdfBytes 0 (some " ")).1 = " W" := by
  refine ⟨?_, ?_, ?_⟩
  · rw [c4_pdf_blank_page_rasterize_policy.2.1 envPdfBlankNoRaster pdfBytes
      "scan.pdf" none [some "", none] (by decide) rfl rfl (by decide)]
    decide
  · exact (c4_pdf_blank_page_rasterize_policy.2.2 envPdfWs pdfBytes 0
      (some " ") [some " "] rfl rfl rfl (by decide)).1
  · rw [(c4_pdf_blank_page_rasterize_policy.2.2 envPdfWs pdfBytes 0
      (some " ") [some " "] rfl rfl rfl (by decide)).2]
    decide

/-- C5: for every input whose lowercased filename extension is none of
`.png`/`.jpg`/`.jpeg`/`.pdf`/`.docx`, `extract_text` returns the bytes decoded
as UTF-8 when they are valid UTF-8, and raises a `ValueError` whose message
names the extension when decoding fails. -/
theorem c5_unknown_extension_utf8_or_valueerror (env : OcrEnv)
    (bytes : List Nat) (name : String) (lang : Option String)
    (h : pyLower (pySplitextExt name) ∉
      ([".png", ".jpg", ".jpeg", ".pdf", ".docx"] : List String)) :
    (∀ s, utf8DecodeStr bytes = some s →
        extract_text env bytes name lang = (Except.ok s, [])) ∧
      (utf8DecodeStr bytes = none →
        extract_text env bytes name lang =
          (Except.error (PyErr.valueError
            ("Unsupported file format: " ++ pyLower (pySplitextExt name))), [])) := by
  simp only [List.mem_cons, List.not_mem_nil, or_false, not_or] at h
  obtain ⟨h1, h2, h3, h4, h5⟩ := h
  rw [extract_text_eq]
  unfold extractByExt
  rw [if_neg (by tauto), if_neg h4, if_neg h5]
  constructor
  · intro s hs
    rw [hs]
  · intro hns
    rw [hns]

/-- C5 witness: with the unrecognised extension `.txt`, the valid UTF-8 bytes
`[104, 105]` decode to `"hi"`, and the invalid byte `[255]` raises a
`ValueError` naming `.txt`. -/
theorem c5_witness :
    extract_text baseEnv [104, 105] "notes.txt" none = (Except.ok "hi", []) ∧
      extract_text baseEnv [255] "notes.txt" none =
        (Except.error (PyErr.valueError "Unsupported file format: .txt"), []) := by
  constructor
  · exact (c5_unknown_extension_utf8_or_valueerror baseEnv [104, 105]
      "notes.txt" none (by decide)).1 "hi" (by decide)
  · rw [(c5_unknown_extension_utf8_or_valueerror baseEnv [255]
      "notes.txt" none (by decide)).2 (by decide)]
    decide

/-- C6: the claim says `summarize_text` normalises every model reply by the
two-path fallback (a `content` attribute, else a `content` mapping key, else
string coercion).  The reply-handling block of `summarize_text` (llm_utils.py
lines 85-90, embedded as `normalizeResult`) implements exactly that mapping —
but the block is unreachable: `_get_api_key` raises `NameError` on the unbound
`YOUR_API_KEY` before the model is ever invoked, so even with a mocked chain
replying an object whose `content` is `"X"`, `summarize_text` raises instead
of returning `"X"`. -/
theorem c6_reply_normalization_correct_but_unreachable :
    normalizeResult (Reply.obj (some "X") "AIMessageRepr") = "X" ∧
      normalizeResult (Reply.dict [("content", "Y")] "DictRepr") = "Y" ∧
      normalizeResult (Reply.str "Z") = "Z" ∧
      summarize_text lenvMockX "doc" (some "explicit-key") =
        Except.error PyErr.nameError := by
  refine ⟨rfl, ?_, rfl, rfl⟩
  decide

/-- C7: every uploaded file longer than `10 * 1024 * 1024` bytes is rejected
by `main` with the user-visible size error, and neither `extract_text` nor
`summarize_text` is entered for that upload. -/
theorem c7_oversize_upload_rejected_before_pipeline (oenv : OcrEnv)
    (lenv : LlmEnv) (bytes : List Nat) (name : String) (btn : Bool)
    (h : bytes.length > 10 * 1024 * 1024) :
    main oenv lenv (some (bytes, name)) btn =
        [Act.errorMsg "File exceeds maximum allowed size of 10 MB."] ∧
      Act.extractCall ∉ main oenv lenv (some (bytes, name)) btn ∧
      Act.summarizeCall ∉ main oenv lenv (some (bytes, name)) btn := by
  have hm : main oenv lenv (some (bytes, name)) btn =
      [Act.errorMsg "File exceeds maximum allowed size of 10 MB."] := by
    simp only [main]
    rw [if_pos h]
  refine ⟨hm, ?_, ?_⟩ <;> simp [hm]

/-- C7 witness: an upload of `10 * 1024 * 1024 + 1` zero bytes is rejected
with the size error and the extraction call never appears in the trace. -/
theorem c7_witness :
    main baseEnv lenv0 (some (List.replicate 10485761 0, "big.pdf")) true =
        [Act.errorMsg "File exceeds maximum allowed size of 10 MB."] ∧
      Act.extractCall ∉
        main baseEnv lenv0 (some (List.replicate 10485761 0, "big.pdf")) true :=
  have h := c7_oversize_upload_rejected_before_pipeline baseEnv lenv0
    (List.replicate 10485761 0) "big.pdf" true
    (by simp only [List.length_replicate]; decide)
  ⟨h.1, h.2.1⟩

/-- C8: for every input whose lowercased extension is `.docx`, `extract_text`
returns the text produced by the rich-text-document reader (`docx2txt`), and
the optical-recognition engine is never invoked on the DOCX path (no OCR or
rasterisation effect appears in the trace, on success or failure). -/
theorem c8_docx_reader_without_ocr (env : OcrEnv) (bytes : List Nat)
    (name : String) (lang : Option String)
    (hext : pyLower (pySplitextExt name) = ".docx") :
    (∀ t, env.docxProcess bytes = some t →
        extract_text env bytes name lang =
          (Except.ok t, [Eff.tmpCreate false])) ∧
      (extract_text env bytes name lang).2.all (fun e => !e.isOcr) = true := by
  rw [extract_text_eq, hext]
  unfold extractByExt
  rw [if_neg (by decide), if_neg (by decide), if_pos rfl]
  constructor
  · intro t ht
    rw [ht]
  · cases h : env.docxProcess bytes <;> simp [Eff.isOcr]

/-- C8 witness: a `.DOCX` upload (upper case) returns the reader's text with
only the temporary-file effect, hence no OCR invocation. -/
theorem c8_witness :
    extract_text envDocxOk docBytes "Report.DOCX" none =
      (Except.ok "Hello from DOCX", [Eff.tmpCreate false]) :=
  (c8_docx_reader_without_ocr envDocxOk docBytes "Report.DOCX" none
    (by decide)).1 "Hello from DOCX" rfl

/-- C9: for every PDF input the language hint has no effect: two calls of
`extract_text` on the same bytes and `.pdf` filename with any two `lang`
values return the same result (text and effects), because the hint is not
forwarded to the per-page OCR fallback. -/
theorem c9_pdf_lang_hint_has_no_effect (env : OcrEnv) (bytes : List Nat)
    (name : String) (l1 l2 : Option String)
    (hext : pyLower (pySplitextExt name) = ".pdf") :
    extract_text env bytes name l1 = extract_text env bytes name l2 := by
  simp only [extract_text_eq, hext, extractByExt_pdf]

/-- C9 witness: on a concrete two-page PDF, the hints `some "eng"` and `none`
give identical results. -/
theorem c9_witness :
    extract_text envPdfAB pdfBytes "multi.pdf" (some "eng") =
      extract_text envPdfAB pdfBytes "multi.pdf" none :=
  c9_pdf_lang_hint_has_no_effect envPdfAB pdfBytes "multi.pdf"
    (some "eng") none (by decide)

/-- C10: for every well-formed PDF with zero pages, `extract_text` returns the
empty string (no trailing newline) without error, and with no effects. -/
theorem c10_zero_page_pdf_extracts_empty_string (env : OcrEnv)
    (bytes : List Nat) (name : String) (lang : Option String)
    (hext : pyLower (pySplitextExt name) = ".pdf")
    (hparse : env.pdfParse bytes = some []) :
    extract_text env bytes name lang = (Except.ok "", []) := by
  rw [extract_text_eq, hext, extractByExt_pdf]
  simp only [_extract_text_from_pdf_bytes, hparse]
  rfl

/-- C10 witness: a concrete zero-page PDF environment yields `""`. -/
theorem c10_witness :
    extract_text envPdfEmpty pdfBytes "empty.pdf" none = (Except.ok "", []) :=
  c10_zero_page_pdf_extracts_empty_string envPdfEmpty pdfBytes "empty.pdf"
    none (by decide) rfl

end OCRApp
